import Mathlib

/-!
Shallow embedding of the IV/dIdV sweep-analysis pipeline of `rqpy`
(`rqpy/core/_iv_didv_tools.py`), restricted to the parts the verified
claims are about: dataframe validation/cleaning/sorting, the
`IVanalysis` constructor, the resistance-calibration passes, the
operating-point solver entry, the Monte-Carlo covariance construction of
`_get_tes_params`, the optimum-bias selector, and the `do_full_analysis`
orchestration.

Conventions of the embedding:
* floating-point data is modelled by `ℚ` (exact rationals); the one
  irrational quantity produced by the modelled code, `np.std`, lands in `ℝ`;
* a pandas DataFrame row is a `SweepRow`, a DataFrame a `List SweepRow`;
* Python exceptions become the `PyError` sum type and fallible code
  returns `Except PyError _`;
* the external `qetpy` collaborators (`didvinitfromdata(...).dofit`,
  `IV2.calc_iv`) are taken as explicit function parameters: the claims
  under study are about the control flow and aggregation around them,
  not about their numerics.
-/

set_option maxRecDepth 20000

/-! ### numpy-style list statistics -/

/-- Embedding of `np.mean` on a 1-d array of rationals: sum divided by
length (division by zero yields 0 for the empty list, a case the
modelled code never exercises). -/
def npMean (l : List ℚ) : ℚ := l.sum / (l.length : ℚ)

/-- Embedding of the variance used by `np.std` with its default
`ddof=0`: mean of squared deviations, normalized by `N`. -/
def npVar (l : List ℚ) : ℚ :=
  (l.map (fun x => (x - npMean l) ^ 2)).sum / (l.length : ℚ)

/-- Embedding of `np.std` (default `ddof=0`): square root of `npVar`. -/
noncomputable def npStd (l : List ℚ) : ℝ := Real.sqrt ((npVar l : ℚ) : ℝ)

/-- Modelled from the spec: the Bessel-corrected "sample standard
deviation" named by the spec text (normalization by `N - 1`), written
out for comparison with the `np.std` the source actually computes. -/
noncomputable def specSampleStd (l : List ℚ) : ℝ :=
  Real.sqrt ((((l.map (fun x => (x - npMean l) ^ 2)).sum / ((l.length : ℚ) - 1)) : ℚ) : ℝ)

/-! ### Sweep rows and the dataframe helpers -/

/-- One row of the processed IV/dIdV sweep DataFrame, keeping the
columns the modelled functions read: `qetbias`, `seriesnum`, `channels`,
`datatype`, `cut_pass`, `avgtrace`, `offset`, `offset_err`. -/
structure SweepRow where
  qetbias : ℚ
  seriesnum : ℚ
  channel : String
  datatype : String
  cutPass : Bool
  avgtrace : List ℚ
  offset : ℚ
  offsetErr : ℚ
deriving DecidableEq

/-- Channels examined by `_check_df`: the explicit channel list if a
non-empty one is given, otherwise the distinct channels present in the
DataFrame (Python's `if not channels:` treats both `None` and an empty
list as missing). -/
def dfChannels (df : List SweepRow) (channels : Option (List String)) : List String :=
  match channels with
  | some (c :: cs) => c :: cs
  | _ => (df.map (fun r => r.channel)).dedup

/-- Number of rows of the DataFrame on channel `c` with bias value `b`
(one entry of `_check_df`'s `Counter`). -/
def biasCount (df : List SweepRow) (c : String) (b : ℚ) : ℕ :=
  (df.filter (fun r => r.channel == c && r.qetbias == b)).length

/-- Distinct bias values occurring on channel `c` (the keys of the
`Counter`). -/
def chanBiases (df : List SweepRow) (c : String) : List ℚ :=
  ((df.filter (fun r => r.channel == c)).map (fun r => r.qetbias)).dedup

/-- Per-channel body of `_check_df`: every distinct bias value on the
channel occurs exactly twice. -/
def channelOk (df : List SweepRow) (c : String) : Bool :=
  (chanBiases df c).all (fun b => biasCount df c b == 2)

/-- Embedding of `_check_df` followed by `np.all(check)`: every examined
channel passes the occurs-exactly-twice test. -/
def checkDf (df : List SweepRow) (channels : Option (List String)) : Bool :=
  (dfChannels df channels).all (fun c => channelOk df c)

/-- Mask `ccutfail = ~df.cut_pass` of `_remove_bad_series`. -/
def ccutfail (r : SweepRow) : Bool := ! r.cutPass

/-- Mask `cstationary`: the averaged trace has fewer than 100 distinct
sample values (`len(set(trace)) < 100`). -/
def cstationary (r : SweepRow) : Bool := r.avgtrace.dedup.length < 100

/-- Mask `cstd`: the offset uncertainty is exactly zero. -/
def cstd (r : SweepRow) : Bool := r.offsetErr == 0

/-- Combined bad-row mask `cbad = ccutfail | cstationary | cstd`. -/
def cbad (r : SweepRow) : Bool := ccutfail r || cstationary r || cstd r

/-- Embedding of `_remove_bad_series`: keep the rows not flagged by
`cbad`, unchanged and in order (`df[~cbad]`). -/
def removeBadSeries (df : List SweepRow) : List SweepRow :=
  df.filter (fun r => ! cbad r)

/-- Sort key of `_sort_df`: ascending lexicographic on
`(qetbias, seriesnum)`. -/
def rowLe (a b : SweepRow) : Bool :=
  a.qetbias < b.qetbias || (a.qetbias == b.qetbias && a.seriesnum ≤ b.seriesnum)

/-- Embedding of `_sort_df`: stable sort by `(qetbias, seriesnum)`. -/
def sortDf (df : List SweepRow) : List SweepRow :=
  df.insertionSort (fun a b => rowLe a b = true)

/-! ### Python errors -/

/-- The Python exceptions the modelled code can raise, by kind. -/
inductive PyError where
  | valueError : String → PyError
  | nameError : String → PyError
  | attributeError : String → PyError
  | indexError : PyError
  | analysisError : String → PyError
deriving DecidableEq

/-- Fixed message of the `ValueError` raised by `IVanalysis.__init__`
when `_check_df` fails; it is a constant string naming no channel. -/
def shapeMsg : String :=
  "The DF is not the correct shape. \n There is either an extra series, or missing data on one or more channels"

/-- Message of the `ValueError` raised by `_fit_rn_didv` when `rload`
has not been fitted yet. -/
def rnSeqMsg : String := "rload has not been calculated yet, please fit rload first"

/-- Representative message of the numpy broadcast `ValueError` raised
by the `ibias[0,1,:] = ...` assignment of `__init__` when cleaning
leaves unequal noise/didv row counts (numpy's actual message also
names the two shapes involved). -/
def broadcastMsg : String := "could not broadcast input array"

/-- Boolean success test on `Except` results. -/
def isOkE {ε α : Type} : Except ε α → Bool
  | Except.ok _ => true
  | Except.error _ => false

/-! ### The IVanalysis state -/

/-- The attributes of an `IVanalysis` object touched by the modelled
methods. Index ranges are Python `range(lo, hi)` objects stored as
`(lo, hi)` pairs of integers. Attributes initialized to `None` and
filled by later stages are `Option`s. -/
structure IVState where
  df : List SweepRow
  channels : Option (List String)
  rshunt : ℚ
  rshuntErr : ℚ
  rload : Option ℚ
  rloadList : List ℚ
  rloadErr : Option ℝ
  rp : Option ℚ
  rnDidv : Option ℚ
  rtotList : List ℚ
  rnIv : Option ℚ
  rnIvErr : Option ℚ
  rpIv : Option ℚ
  rpIvErr : Option ℚ
  vb : Option (List ℚ)
  vbErr : Option (List ℚ)
  norminds : Int × Int
  scinds : Int × Int
  traninds : Int × Int
  ibiasNoise : List ℚ
  ibiasDidv : List ℚ
  ibiasErrNoise : List ℚ
  ibiasErrDidv : List ℚ
  ditesNoise : List ℚ
  ditesDidv : List ℚ
  ditesErrNoise : List ℚ
  ditesErrDidv : List ℚ
  tbath : ℚ
  tbathErr : ℚ
  tc : ℚ
  tcErr : ℚ
  gta : ℚ
  gtaErr : ℚ
  squiddc : Option ℚ
  squidpole : Option ℚ
  squidn : Option ℚ
  tload : Option ℚ
  dfPtes : Option (List ℚ × List ℚ)
  dfPtesErr : Option (List ℚ × List ℚ)
  dfR0 : Option (List ℚ × List ℚ)
  dfR0Err : Option (List ℚ × List ℚ)
  dfRp : Option (List ℚ × List ℚ)
  dfRpErr : Option (List ℚ × List ℚ)

/-- Local variables of `IVanalysis.__init__` that are bound before the
`ib_err` branch runs (`self.*` lives on the instance, not in the local
scope). `ibias_err` is **not** among them: it is only created inside the
`ib_err is None` branch, which is what the `else` branch's subscript
assignment `ibias_err[0,:,:] = ib_err` would need. -/
def initLocalNames : List String := [("df"), ("check"), ("ibias")]

/-- The `IVState` built at the end of a successful `__init__`: the
cleaned sorted DataFrame, the three index ranges, the bias/offset arrays
read off the noise-type and didv-type rows, and every fit attribute
still `None`. `fill` is the value the `ibias_err` array is filled with
(0 from `np.zeros` on the `ib_err is None` path). Only reached (see
`ivInitFinish`) when the cleaned noise and didv row counts agree, since
otherwise the array assignments raise. -/
def ivStateOf (df2 : List SweepRow) (ninds scinds trinds : Int × Int)
    (ch : Option (List String))
    (rshunt rshuntErr tbath tbathErr tc tcErr gta gtaErr : ℚ) (fill : ℚ) : IVState :=
  { df := df2, channels := ch, rshunt := rshunt, rshuntErr := rshuntErr,
    rload := none, rloadList := [], rloadErr := none, rp := none,
    rnDidv := none, rtotList := [], rnIv := none, rnIvErr := none,
    rpIv := none, rpIvErr := none, vb := none, vbErr := none,
    norminds := ninds, scinds := scinds, traninds := trinds,
    ibiasNoise := ((df2.filter (fun r => r.datatype == ("noise"))).map (fun r => r.qetbias)),
    ibiasDidv := ((df2.filter (fun r => r.datatype == ("didv"))).map (fun r => r.qetbias)),
    ibiasErrNoise := List.replicate (df2.filter (fun r => r.datatype == ("noise"))).length fill,
    ibiasErrDidv := List.replicate (df2.filter (fun r => r.datatype == ("noise"))).length fill,
    ditesNoise := ((df2.filter (fun r => r.datatype == ("noise"))).map (fun r => r.offset)),
    ditesDidv := ((df2.filter (fun r => r.datatype == ("didv"))).map (fun r => r.offset)),
    ditesErrNoise := ((df2.filter (fun r => r.datatype == ("noise"))).map (fun r => r.offsetErr)),
    ditesErrDidv := ((df2.filter (fun r => r.datatype == ("didv"))).map (fun r => r.offsetErr)),
    tbath := tbath, tbathErr := tbathErr, tc := tc, tcErr := tcErr,
    gta := gta, gtaErr := gtaErr,
    squiddc := none, squidpole := none, squidn := none, tload := none,
    dfPtes := none, dfPtesErr := none, dfR0 := none, dfR0Err := none,
    dfRp := none, dfRpErr := none }

/-- Tail of `__init__` from the `ibias = np.zeros(...)` line on. On the
`ib_err is None` path `ibias_err` is created as zeros; otherwise the
assignment `ibias_err[0,:,:] = ib_err` refers to a local name that does
not exist yet (see `initLocalNames`), which is Python's unbound-variable
error and fires before anything else. The following lines 438-445 fill
the bias/offset arrays: `ibias[0,0,:] = noise qetbias` always fits (the
slice length is the noise count), but `ibias[0,1,:] = didv qetbias`
broadcasts the didv column into a noise-count-length slice, so numpy
raises a `ValueError` whenever cleaning left unequal noise/didv row
counts. -/
def ivInitFinish (df2 : List SweepRow) (ninds scinds trinds : Int × Int)
    (ch : Option (List String))
    (rshunt rshuntErr tbath tbathErr tc tcErr gta gtaErr : ℚ)
    (ibErr : Option ℚ) : Except PyError IVState :=
  match ibErr with
  | none =>
      if (df2.filter (fun r => r.datatype == ("didv"))).length
          = (df2.filter (fun r => r.datatype == ("noise"))).length then
        Except.ok (ivStateOf df2 ninds scinds trinds ch rshunt rshuntErr tbath tbathErr tc tcErr gta gtaErr 0)
      else
        Except.error (PyError.valueError broadcastMsg)
  | some e =>
      if initLocalNames.contains ("ibias_err") then
        (if (df2.filter (fun r => r.datatype == ("didv"))).length
            = (df2.filter (fun r => r.datatype == ("noise"))).length then
          Except.ok (ivStateOf df2 ninds scinds trinds ch rshunt rshuntErr tbath tbathErr tc tcErr gta gtaErr e)
        else
          Except.error (PyError.valueError broadcastMsg))
      else
        Except.error (PyError.nameError ("ibias_err"))

/-- Middle of `__init__` on the cleaned DataFrame `df2`: index-range
assignment. `norminds = range(nnorm)`, `scinds = range(len//2 - nsc,
len//2)` and, when `ntran` is `None`, `traninds =
range(norminds[-1]+1, scinds[0])`, whose subscripts raise `IndexError`
when `norminds` (`nnorm = 0`) or `scinds` (`nsc = 0`) is empty. -/
def ivInitCore (df2 : List SweepRow) (nnorm nsc : ℕ) (ntran : Option (Int × Int))
    (ch : Option (List String))
    (rshunt rshuntErr tbath tbathErr tc tcErr gta gtaErr : ℚ)
    (ibErr : Option ℚ) : Except PyError IVState :=
  match ntran with
  | some tr =>
      ivInitFinish df2 (0, (nnorm : Int))
        (((df2.length : Int) / 2 - (nsc : Int)), ((df2.length : Int) / 2)) tr
        ch rshunt rshuntErr tbath tbathErr tc tcErr gta gtaErr ibErr
  | none =>
      if nnorm = 0 then Except.error PyError.indexError
      else if ((df2.length : Int) / 2 - (nsc : Int)) < ((df2.length : Int) / 2) then
        ivInitFinish df2 (0, (nnorm : Int))
          (((df2.length : Int) / 2 - (nsc : Int)), ((df2.length : Int) / 2))
          ((nnorm : Int), ((df2.length : Int) / 2 - (nsc : Int)))
          ch rshunt rshuntErr tbath tbathErr tc tcErr gta gtaErr ibErr
      else Except.error PyError.indexError

/-- Embedding of `IVanalysis.__init__`: sort, run `_check_df` and raise
the fixed-message `ValueError` on failure, optionally run
`_remove_bad_series`, then assign index ranges and the bias/offset
arrays. -/
def ivInit (df : List SweepRow) (nnorm nsc : ℕ) (ntran : Option (Int × Int))
    (ch : Option (List String))
    (rshunt rshuntErr tbath tbathErr tc tcErr gta gtaErr : ℚ)
    (ibErr : Option ℚ) (lgcremoveBadseries : Bool) : Except PyError IVState :=
  if checkDf (sortDf df) ch = true then
    ivInitCore (if lgcremoveBadseries then removeBadSeries (sortDf df) else sortDf df)
      nnorm nsc ntran ch rshunt rshuntErr tbath tbathErr tc tcErr gta gtaErr ibErr
  else
    Except.error (PyError.valueError shapeMsg)

/-! ### Resistance calibration (`_fit_rload_didv`, `_fit_rn_didv`) -/

/-- Python `rows.iloc[lo:hi]` for an index range with `0 ≤ lo ≤ hi`. -/
def rowsInRange {α : Type} (l : List α) (r : Int × Int) : List α :=
  (l.drop r.1.toNat).take (r.2 - r.1).toNat

/-- The didv-type rows of the state's DataFrame (`self.df[self.didvinds]`). -/
def didvRowsOf (s : IVState) : List SweepRow :=
  s.df.filter (fun r => r.datatype == ("didv"))

/-- Embedding of `_fit_rload_didv`. The per-point superconducting
single-pole fit (`didvinitfromdata ... dofit(1) ... ["rtot"]`, an
external `qetpy` call) is the parameter `fit`. The aggregation is the
source's: `rload = np.mean(rload_list)`, `rload_err =
np.std(rload_list)`, `rp = rload - rshunt`. -/
noncomputable def fitRloadDidv (fit : SweepRow → ℚ) (s : IVState) : IVState :=
  { s with
    rload := some (npMean ((rowsInRange (didvRowsOf s) s.scinds).map fit)),
    rloadList := ((rowsInRange (didvRowsOf s) s.scinds).map fit),
    rloadErr := some (npStd ((rowsInRange (didvRowsOf s) s.scinds).map fit)),
    rp := some (npMean ((rowsInRange (didvRowsOf s) s.scinds).map fit) - s.rshunt) }

/-- Embedding of `_fit_rn_didv`. Raises the sequencing `ValueError`
`rnSeqMsg` exactly when `self.rload is None`; otherwise fits every
normal-range point (external fit = parameter `fit`) and sets `rn_didv =
np.mean(rtot_list) - rload`. -/
def fitRnDidv (fit : SweepRow → ℚ) (s : IVState) : Except PyError IVState :=
  match s.rload with
  | none => Except.error (PyError.valueError rnSeqMsg)
  | some rl =>
      Except.ok
        { s with
          rnDidv := some (npMean ((rowsInRange (didvRowsOf s) s.norminds).map fit) - rl),
          rtotList := ((rowsInRange (didvRowsOf s) s.norminds).map fit) }

/-! ### Operating-point solver entry (`analyze_sweep`) -/

/-- The arguments `analyze_sweep` passes to the external `qetpy.IV2`
constructor. -/
structure IVInput where
  ditesNoise : List ℚ
  ditesDidv : List ℚ
  ditesErrNoise : List ℚ
  ditesErrDidv : List ℚ
  ibiasNoise : List ℚ
  ibiasDidv : List ℚ
  ibiasErrNoise : List ℚ
  ibiasErrDidv : List ℚ
  rsh : ℚ
  rshErr : ℚ
  rpGuess : ℚ
  rpErrGuess : ℚ
  normalinds : Int × Int
  scinds : Int × Int

/-- The quantities `analyze_sweep` reads back from the `IV2` object
after `calc_iv()`. -/
structure IVResult where
  ptesNoise : List ℚ
  ptesDidv : List ℚ
  ptesErrNoise : List ℚ
  ptesErrDidv : List ℚ
  r0Noise : List ℚ
  r0Didv : List ℚ
  r0ErrNoise : List ℚ
  r0ErrDidv : List ℚ
  rpNoise : ℚ
  rpDidv : ℚ
  rpErrNoise : ℚ
  rpErrDidv : ℚ
  rnormNoise : ℚ
  rnormErrNoise : ℚ
  vb : List ℚ
  vbErr : List ℚ

/-- The hard-coded `rp_guess=5e-3` of the `IV2` call in `analyze_sweep`. -/
def analyzeSweepRpGuess : ℚ := 5 / 1000

/-- Embedding of `IVanalysis.analyze_sweep`. The body performs no
precondition check of any kind (in particular it never reads
`self.rload`): it constructs the external `IV2` object — abstracted as
the parameter `calcIv` — from the offset/bias arrays, the shunt
resistance and the fixed `rp_guess`, and writes the results back. -/
def analyzeSweep (calcIv : IVInput → IVResult) (s : IVState) : Except PyError IVState :=
  Except.ok
    (let r := calcIv
      { ditesNoise := s.ditesNoise, ditesDidv := s.ditesDidv,
        ditesErrNoise := s.ditesErrNoise, ditesErrDidv := s.ditesErrDidv,
        ibiasNoise := s.ibiasNoise, ibiasDidv := s.ibiasDidv,
        ibiasErrNoise := s.ibiasErrNoise, ibiasErrDidv := s.ibiasErrDidv,
        rsh := s.rshunt, rshErr := s.rshuntErr,
        rpGuess := analyzeSweepRpGuess, rpErrGuess := 0,
        normalinds := s.norminds, scinds := s.scinds }
    { s with
      dfPtes := some (r.ptesNoise, r.ptesDidv),
      dfPtesErr := some (r.ptesErrNoise, r.ptesErrDidv),
      dfR0 := some (r.r0Noise, r.r0Didv),
      dfR0Err := some (r.r0ErrNoise, r.r0ErrDidv),
      dfRp := some (List.replicate s.ditesNoise.length r.rpNoise,
                    List.replicate s.ditesDidv.length r.rpDidv),
      dfRpErr := some (List.replicate s.ditesNoise.length r.rpErrNoise,
                       List.replicate s.ditesDidv.length r.rpErrDidv),
      rpIv := some r.rpNoise, rpIvErr := some r.rpErrNoise,
      rnIv := some r.rnormNoise, rnIvErr := some r.rnormErrNoise,
      vb := some r.vb, vbErr := some r.vbErr })

/-! ### Monte-Carlo covariance construction (`_get_tes_params`) -/

/-- Parameter order of the stage-2 (`DIDV2`) fit, as set up by
`fit_tran_didv`: `(rshunt0, rp0, r0, beta0, l0, L0, tau0, dt0)` —
8 parameters. -/
def didv2ParamNames : List String :=
  [("rshunt0"), ("rp0"), ("r0"), ("beta0"), ("l0"), ("L0"), ("tau0"), ("dt0")]

/-- Number of stage-2 small-signal fit parameters (8). -/
def didv2ParamCount : ℕ := didv2ParamNames.length

/-- Dimension of the multivariate normal sampled by `_get_tes_params`:
the code slices the last parameter (`dt`) off with `irwincov[:-1,:-1]`
and then appends 3 thermal parameters
(`full_cov = np.zeros((cov.shape[0]+3, cov.shape[1]+3))`). -/
def tesSampleDim : ℕ := (didv2ParamCount - 1) + 3

/-- The mean vector `full_mu` of `_get_tes_params`: the 7 retained
small-signal parameters followed by `tc`, `tbath`, `Gta`. -/
def tesFullMu (mu : Fin 7 → ℝ) (tc tbath gta : ℝ) : Fin 10 → ℝ :=
  fun i =>
    if h : (i : ℕ) < 7 then mu ⟨i, h⟩
    else if (i : ℕ) = 7 then tc
    else if (i : ℕ) = 8 then tbath
    else gta

/-- The covariance `full_cov` of `_get_tes_params`: starts as zeros,
receives the sliced dIdV-fit covariance on the leading block and the
three independent thermal variances on the trailing diagonal. -/
def tesFullCov (cov : Fin 7 → Fin 7 → ℝ) (tcErr tbathErr gtaErr : ℝ) :
    Fin 10 → Fin 10 → ℝ :=
  fun i j =>
    if hi : (i : ℕ) < 7 then
      (if hj : (j : ℕ) < 7 then cov ⟨i, hi⟩ ⟨j, hj⟩ else 0)
    else if (i : ℕ) = 7 ∧ (j : ℕ) = 7 then tcErr ^ 2
    else if (i : ℕ) = 8 ∧ (j : ℕ) = 8 then tbathErr ^ 2
    else if (i : ℕ) = 9 ∧ (j : ℕ) = 9 then gtaErr ^ 2
    else 0

/-- The distribution parameters `_get_tes_params` hands to
`np.random.multivariate_normal`: mean `full_mu` and covariance
`full_cov`, built from the stage-2 fit results with the last (`dt`)
row/column dropped. -/
def getTesParamsDist (irwinparams : Fin 8 → ℝ) (irwincov : Fin 8 → Fin 8 → ℝ)
    (tc tbath gta tcErr tbathErr gtaErr : ℝ) :
    (Fin 10 → ℝ) × (Fin 10 → Fin 10 → ℝ) :=
  (tesFullMu (fun i => irwinparams ⟨i, by omega⟩) tc tbath gta,
   tesFullCov (fun i j => irwincov ⟨i, by omega⟩ ⟨j, by omega⟩) tcErr tbathErr gtaErr)

/-- Default `nsamples` of `estimate_noise_errors`, which it forwards to
`_get_tes_params` for every processed transition bias point. -/
def estimateNoiseErrorsNsamplesDefault : ℕ := 500

/-- Inclusion of the sliced small-signal indices into the sample vector. -/
def finLow (i : Fin 7) : Fin 10 := ⟨i, by omega⟩

/-- Inclusion of the sliced small-signal indices into the 8-parameter
fit vector. -/
def finEl (i : Fin 7) : Fin 8 := ⟨i, by omega⟩

/-! ### Optimum-bias selector (`find_optimum_bias`) -/

/-- Tail recursion for `np.argmin`: strict improvement moves the best
index, so ties keep the first occurrence. -/
def npArgminAux : List ℚ → ℕ → ℕ → ℚ → ℕ
  | [], _, bi, _ => bi
  | x :: xs, cur, bi, bv =>
      if x < bv then npArgminAux xs (cur + 1) cur x
      else npArgminAux xs (cur + 1) bi bv

/-- Embedding of `np.argmin`: index of the first occurrence of the
minimum (0 on the empty list, where numpy raises instead). -/
def npArgmin : List ℚ → ℕ
  | [] => 0
  | x :: xs => npArgminAux xs 1 0 x

/-- Embedding of the selection logic of `find_optimum_bias` (the
`lgctau=True` return). Inputs are the arrays the method reads:
`r0s = trandf.r0/rn_iv`, `energy_res = noise_model['energy_res'][0]`,
`qets = trandf.qetbias`, `taus = trandf.tau_eff`. Returns
`(optimum_bias_e, optimum_r0_e, optimum_e, optimum_bias_t,
optimum_r0_t, optimum_t)` exactly as the source computes them — note
the last component is `energy_res[tauminind]`. -/
def findOptimumBias (r0s energyRes qets taus : List ℚ) : ℚ × ℚ × ℚ × ℚ × ℚ × ℚ :=
  (qets.getD (npArgmin energyRes) 0,
   r0s.getD (npArgmin energyRes) 0,
   energyRes.getD (npArgmin energyRes) 0,
   qets.getD (npArgmin taus) 0,
   r0s.getD (npArgmin taus) 0,
   energyRes.getD (npArgmin taus) 0)

/-! ### Orchestration (`do_full_analysis`) -/

/-- The methods defined on the `IVanalysis` class in the source (there
is no `model_noise`; the noise-modeling method is
`model_noise_simple`). -/
def ivMethodNames : List String :=
  [("_fit_rload_didv"), ("_fit_rn_didv"), ("fit_rload_rn"), ("analyze_sweep"),
   ("fit_tran_didv"), ("fit_normal_noise"), ("fit_sc_noise"), ("model_noise_simple"),
   ("_get_tes_params"), ("_err_bounds"), ("estimate_noise_errors"),
   ("find_optimum_bias"), ("make_noiseplots"), ("plot_rload_rn_qetbias"),
   ("plot_didv_bias"), ("plot_ztes_bias"), ("plot_noise_model"), ("do_full_analysis")]

/-- Names bound in the scope of `do_full_analysis` (its parameters and
the `success` local); `lcgplot` is not among them. -/
def doFullLocalNames : List String :=
  [("self"), ("collection_eff"), ("lgcplot"), ("lgcsave"), ("success")]

/-- The `self.fit_normal_noise(lgcplot=lcgplot, ...)` call: evaluating
the argument expression `lcgplot` looks the name up in the enclosing
scope and fails with Python's undefined-variable error. -/
def fitNormalNoiseStep : Except PyError Unit :=
  if doFullLocalNames.contains ("lcgplot") then Except.ok ()
  else Except.error (PyError.nameError ("lcgplot"))

/-- The `self.model_noise(...)` call: the attribute lookup on the class
fails because no such method exists. -/
def modelNoiseStep : Except PyError Unit :=
  if ivMethodNames.contains ("model_noise") then Except.ok ()
  else Except.error (PyError.attributeError ("model_noise"))

/-- One `try/except` block of `do_full_analysis`: any failure of the
step is caught by the bare `except:` and re-raised as an
`AnalysisError` with the block's message. -/
def tryStep (step : Except PyError Unit) (msg : String) : Except PyError Unit :=
  match step with
  | Except.ok _ => Except.ok ()
  | Except.error _ => Except.error (PyError.analysisError msg)

/-- Message of the `AnalysisError` for the fit-normal-noise block. -/
def msgNormalNoise : String :=
  "An error occurred when trying to fit the SQUID and Electronics components \n of the normal state noise"

/-- Embedding of `do_full_analysis`. The outcomes of the stages whose
bodies live elsewhere are parameters `s1` (`_fit_rload_didv`), `s2`
(`_fit_rn_didv`), `s3` (`analyze_sweep`), `s4`
(`plot_rload_rn_qetbias`), `s6` (`fit_sc_noise`), `s7`
(`fit_tran_didv`), `s9` (`find_optimum_bias`); the fit-normal-noise and
model-noise steps are determined by the source itself (see
`fitNormalNoiseStep`, `modelNoiseStep`). Returns `True` only if every
stage succeeds. -/
def doFullAnalysis (s1 s2 s3 s4 s6 s7 s9 : Except PyError Unit) : Except PyError Bool := do
  let _ ← tryStep s1 ("An error occurred when fitting the SC dIdV to determine Rload. \n Please make sure the SC indices (scinds) are correct")
  let _ ← tryStep s2 ("An error occurred when fitting the Normal dIdV to determine Rn. \n Please make sure the Normal indices (norminds) are correct")
  let _ ← tryStep s3 ("An error occurred when fitting the IV curve")
  let _ ← tryStep s4 ("An error occurred when plotting Rload and Rn vs applied QETbias")
  let _ ← tryStep fitNormalNoiseStep msgNormalNoise
  let _ ← tryStep s6 ("An error occurred when trying to fit the temperature of the load resistor \n from the SC state noise")
  let _ ← tryStep s7 ("An error occurred when trying to fit the Transition state dIdV. \n Try changing the dt0 or add180phase parameter for the DIDV fits")
  let _ ← tryStep modelNoiseStep ("An error occurred when trying to model the Transition state noise and estimate the theoretical energy resolution")
  let _ ← tryStep s9 ("An error occurred when fiding the optimum QET bias")
  pure true

/-- The mean vector handed to `np.random.multivariate_normal` by
`_get_tes_params`. -/
def tesMuOf (ip : Fin 8 → ℝ) (ic : Fin 8 → Fin 8 → ℝ)
    (tc tbath gta tcErr tbathErr gtaErr : ℝ) : Fin 10 → ℝ :=
  (getTesParamsDist ip ic tc tbath gta tcErr tbathErr gtaErr).1

/-- The covariance handed to `np.random.multivariate_normal` by
`_get_tes_params`. -/
def tesCovOf (ip : Fin 8 → ℝ) (ic : Fin 8 → Fin 8 → ℝ)
    (tc tbath gta tcErr tbathErr gtaErr : ℝ) : Fin 10 → Fin 10 → ℝ :=
  (getTesParamsDist ip ic tc tbath gta tcErr tbathErr gtaErr).2

/-- Membership in a Python `range(lo, hi)` stored as an `(lo, hi)` pair. -/
def inR (r : Int × Int) (k : Int) : Prop := r.1 ≤ k ∧ k < r.2

/-! ### Concrete fixtures -/

/-- A 100-sample trace with 100 distinct values, passing the
`cstationary` cut. -/
def goodTrace : List ℚ := (List.range 100).map (fun n => ((n : ℚ)))

/-- Row builder for fixtures: quality cut passed, non-stationary trace. -/
def mkRow (chan : String) (b sn : ℚ) (ty : String) (off oe : ℚ) : SweepRow :=
  { qetbias := b, seriesnum := sn, channel := chan, datatype := ty,
    cutPass := true, avgtrace := goodTrace, offset := off, offsetErr := oe }

/-- A well-formed sweep on one channel: three bias points, one noise and
one didv row each, already in `(qetbias, seriesnum)` order, all rows
clean. -/
def df6 : List SweepRow :=
  [mkRow ("A") 0 0 ("noise") 0 1, mkRow ("A") 0 1 ("didv") 0 1,
   mkRow ("A") 1 2 ("noise") 0 1, mkRow ("A") 1 3 ("didv") 0 1,
   mkRow ("A") 2 4 ("noise") 0 1, mkRow ("A") 2 5 ("didv") 0 1]

/-- The sorted and cleaned `df6` (equal to `df6` itself). -/
def dfClean6 : List SweepRow := removeBadSeries (sortDf df6)

/-- The state `ivInit df6 1 1 none none (5/1000) 0 0 0 0 0 0 0 none true`
produces. -/
def s6 : IVState :=
  ivStateOf dfClean6 (0, 1)
    (((dfClean6.length : Int) / 2 - 1), ((dfClean6.length : Int) / 2))
    (1, ((dfClean6.length : Int) / 2 - 1))
    none (5/1000) 0 0 0 0 0 0 0 0

/-- Like `df6`, with a fourth bias point; the noise row of bias 2 and
the didv row of bias 3 have `offset_err = 0`, so `_check_df` passes
(every bias occurs twice before cleaning) while `_remove_bad_series`
drops exactly those two rows: the cleaned data keeps equal noise and
didv counts (3 each, so the bias/offset array assignments of `__init__`
do not raise), yet bias values 2 and 3 each retain a single row. -/
def df8c : List SweepRow :=
  [mkRow ("A") 0 0 ("noise") 0 1, mkRow ("A") 0 1 ("didv") 0 1,
   mkRow ("A") 1 2 ("noise") 0 1, mkRow ("A") 1 3 ("didv") 0 1,
   mkRow ("A") 2 4 ("noise") 0 0, mkRow ("A") 2 5 ("didv") 0 1,
   mkRow ("A") 3 6 ("noise") 0 1, mkRow ("A") 3 7 ("didv") 0 0]

/-- One-channel dataframe failing `_check_df` (bias 0 occurs once). -/
def dfBadQ : List SweepRow := [mkRow ("QQQ") 0 0 ("noise") 0 1]

/-- Same failure on a channel with a different name. -/
def dfBadZ : List SweepRow := [mkRow ("ZQZ") 0 0 ("noise") 0 1]

/-- A state with every derived attribute unset, as after a minimal
`__init__`. -/
def dummyState : IVState :=
  ivStateOf [] (0, 0) (0, 0) (0, 0) none 0 0 0 0 0 0 0 0 0

/-- Two didv rows with offsets 0 and 2 (traces empty: the calibration
passes never read them), with `scinds` covering both and `norminds` the
first, on a state whose shunt resistance is 0. -/
def csW : IVState :=
  { dummyState with
    df := [{ qetbias := 0, seriesnum := 0, channel := ("A"), datatype := ("didv"),
             cutPass := true, avgtrace := [], offset := 0, offsetErr := 1 },
           { qetbias := 1, seriesnum := 1, channel := ("A"), datatype := ("didv"),
             cutPass := true, avgtrace := [], offset := 2, offsetErr := 1 }],
    scinds := (0, 2), norminds := (0, 1) }

/-- The state after running both calibration passes on `csW` with the
per-point fit returning the row offset. -/
noncomputable def csWFitted : IVState :=
  { csW with
    rload := some (npMean [(0 : ℚ), 2]),
    rloadList := [(0 : ℚ), 2],
    rloadErr := some (npStd [(0 : ℚ), 2]),
    rp := some (npMean [(0 : ℚ), 2] - 0),
    rnDidv := some (npMean [(0 : ℚ)] - npMean [(0 : ℚ), 2]),
    rtotList := [(0 : ℚ)] }

/-- A trivial stand-in for the external `IV2.calc_iv` result. -/
def ivres0 : IVResult :=
  { ptesNoise := [], ptesDidv := [], ptesErrNoise := [], ptesErrDidv := [],
    r0Noise := [], r0Didv := [], r0ErrNoise := [], r0ErrDidv := [],
    rpNoise := 0, rpDidv := 0, rpErrNoise := 0, rpErrDidv := 0,
    rnormNoise := 0, rnormErrNoise := 0, vb := [], vbErr := [] }

/-- Projection used to inspect which `ValueError` (if any) an
`__init__` run raised. -/
def ivInitErrMsg : Except PyError IVState → Option String
  | Except.error (PyError.valueError m) => some m
  | _ => none

/-! ### Theorems -/

/-- C2 (code bug evidence): on `energy_res = [3, 5]`, `taus = [2, 1]`,
`qets = [10, 20]`, `r0s = [1, 2]`, `find_optimum_bias` returns
`optimum_t = 5 = energy_res[argmin taus]`, not the fastest effective
time constant `taus[argmin taus] = 1` promised by its docstring and the
spec; the argmin itself is a stable (first-occurrence) argmin. -/
theorem find_optimum_bias_tau_value_bug :
    findOptimumBias [1, 2] [3, 5] [10, 20] [2, 1] = (10, 1, 3, 20, 2, 5)
    ∧ List.getD [(2 : ℚ), 1] (npArgmin [(2 : ℚ), 1]) 0 = 1
    ∧ ((5 : ℚ)) ≠ 1
    ∧ npArgmin [(3 : ℚ), 3, 4] = 0 := by
  refine ⟨by decide, by decide, by decide, by decide⟩

/-- C7: `_fit_rn_didv` raises its sequencing `ValueError` exactly when
`rload` is unset, and returns successfully (performing its fits)
exactly when `rload` has been set. -/
theorem fit_rn_requires_rload (fit : SweepRow → ℚ) (s : IVState) :
    (fitRnDidv fit s = Except.error (PyError.valueError rnSeqMsg) ↔ s.rload = none)
    ∧ (isOkE (fitRnDidv fit s) = true ↔ s.rload ≠ none) := by
  cases hr : s.rload <;> simp [fitRnDidv, hr, isOkE]

/-- C8: `_remove_bad_series` keeps a row iff its quality cut passed, its
averaged trace has at least 100 distinct sample values, and its offset
uncertainty is nonzero; kept rows are returned unchanged and in order
(the output is a sublist of the input). -/
theorem remove_bad_series_characterization (df : List SweepRow) (r : SweepRow) :
    (r ∈ removeBadSeries df ↔
      r ∈ df ∧ r.cutPass = true ∧ 100 ≤ r.avgtrace.dedup.length ∧ r.offsetErr ≠ 0)
    ∧ (removeBadSeries df).Sublist df := by
  constructor
  · simp only [removeBadSeries, List.mem_filter, cbad, ccutfail, cstationary, cstd,
      Bool.or_eq_true, Bool.not_eq_true', Bool.or_eq_false_iff, Bool.not_eq_false',
      decide_eq_false_iff_not, Nat.not_lt, beq_eq_false_iff_ne, ne_eq]
    tauto
  · exact List.filter_sublist df

/-- C9: `do_full_analysis` can never return `True`: whatever the earlier
stages do, execution that reaches the fit-normal-noise block hits the
undefined name `lcgplot` and the bare `except:` converts it into an
`AnalysisError` (and the later `model_noise` attribute lookup would fail
too). -/
theorem do_full_analysis_never_succeeds (s1 s2 s3 s4 s6 s7 s9 : Except PyError Unit) :
    isOkE (doFullAnalysis s1 s2 s3 s4 s6 s7 s9) = false
    ∧ (s1 = Except.ok () → s2 = Except.ok () → s3 = Except.ok () → s4 = Except.ok () →
        doFullAnalysis s1 s2 s3 s4 s6 s7 s9
          = Except.error (PyError.analysisError msgNormalNoise)) := by
  constructor
  · cases s1 <;> cases s2 <;> cases s3 <;> cases s4 <;> rfl
  · intro h1 h2 h3 h4
    subst h1; subst h2; subst h3; subst h4
    rfl

/-- C9 witness: with every externally-determined stage succeeding,
`do_full_analysis` fails with the fit-normal-noise `AnalysisError`. -/
theorem do_full_analysis_witness :
    doFullAnalysis (Except.ok ()) (Except.ok ()) (Except.ok ()) (Except.ok ())
        (Except.ok ()) (Except.ok ()) (Except.ok ())
      = Except.error (PyError.analysisError msgNormalNoise) :=
  (do_full_analysis_never_succeeds (Except.ok ()) (Except.ok ()) (Except.ok ())
    (Except.ok ()) (Except.ok ()) (Except.ok ()) (Except.ok ())).2 rfl rfl rfl rfl

/-- C6 (counterexample): on a state whose `rload` is unset,
`analyze_sweep` does not raise anything — it succeeds, so the claimed
`SequencingError` does not exist. -/
theorem analyze_sweep_runs_without_rload :
    dummyState.rload = none
    ∧ isOkE (analyzeSweep (fun _ => ivres0) dummyState) = true :=
  ⟨rfl, rfl⟩

/-- C6 (amended): `analyze_sweep` performs no precondition check at all:
for every state — in particular any state where the resistance
calibration stage has not set `rload` — it proceeds to compute the IV
reduction (through the external `IV2` collaborator, with the hard-coded
`rp_guess`) and returns successfully. -/
theorem analyze_sweep_no_precondition_check (calcIv : IVInput → IVResult) (s : IVState) :
    isOkE (analyzeSweep calcIv s) = true := rfl

/-- C1 (counterexample): the multivariate normal built by
`_get_tes_params` has dimension 10, not 11: the stage-2 fit has 8
parameters and the code drops the trailing time-offset row/column
before appending the 3 thermal parameters. -/
theorem mc_sample_dimension_is_ten :
    tesSampleDim = 10 ∧ didv2ParamCount = 8 ∧ ¬ tesSampleDim = 11 := by
  refine ⟨by decide, by decide, by decide⟩

/-- C1 (amended): the Monte-Carlo step of `estimate_noise_errors` draws
`nsamples` samples (default 500) from a single multivariate normal of
dimension 10 — the first 7 small-signal fit parameters (the time offset
`dt` is sliced off) plus critical temperature, bath temperature, and
thermal conductance — whose covariance is block-diagonal: the stage-2
dIdV fit covariance restricted to the retained small-signal block, the
independent variances `tc_err^2`, `tbath_err^2`, `Gta_err^2` on the
thermal diagonal, and zero cross-covariance between the two blocks. -/
theorem tes_params_cov_block_diagonal (ip : Fin 8 → ℝ) (ic : Fin 8 → Fin 8 → ℝ)
    (tc tbath gta tcErr tbathErr gtaErr : ℝ) :
    (∀ i j : Fin 7,
      tesCovOf ip ic tc tbath gta tcErr tbathErr gtaErr (finLow i) (finLow j)
        = ic (finEl i) (finEl j))
    ∧ (∀ i : Fin 7,
        tesCovOf ip ic tc tbath gta tcErr tbathErr gtaErr (finLow i) ⟨7, by omega⟩ = 0
        ∧ tesCovOf ip ic tc tbath gta tcErr tbathErr gtaErr (finLow i) ⟨8, by omega⟩ = 0
        ∧ tesCovOf ip ic tc tbath gta tcErr tbathErr gtaErr (finLow i) ⟨9, by omega⟩ = 0
        ∧ tesCovOf ip ic tc tbath gta tcErr tbathErr gtaErr ⟨7, by omega⟩ (finLow i) = 0
        ∧ tesCovOf ip ic tc tbath gta tcErr tbathErr gtaErr ⟨8, by omega⟩ (finLow i) = 0
        ∧ tesCovOf ip ic tc tbath gta tcErr tbathErr gtaErr ⟨9, by omega⟩ (finLow i) = 0)
    ∧ tesCovOf ip ic tc tbath gta tcErr tbathErr gtaErr ⟨7, by omega⟩ ⟨7, by omega⟩ = tcErr ^ 2
    ∧ tesCovOf ip ic tc tbath gta tcErr tbathErr gtaErr ⟨8, by omega⟩ ⟨8, by omega⟩ = tbathErr ^ 2
    ∧ tesCovOf ip ic tc tbath gta tcErr tbathErr gtaErr ⟨9, by omega⟩ ⟨9, by omega⟩ = gtaErr ^ 2
    ∧ tesCovOf ip ic tc tbath gta tcErr tbathErr gtaErr ⟨7, by omega⟩ ⟨8, by omega⟩ = 0
    ∧ tesCovOf ip ic tc tbath gta tcErr tbathErr gtaErr ⟨7, by omega⟩ ⟨9, by omega⟩ = 0
    ∧ tesCovOf ip ic tc tbath gta tcErr tbathErr gtaErr ⟨8, by omega⟩ ⟨7, by omega⟩ = 0
    ∧ tesCovOf ip ic tc tbath gta tcErr tbathErr gtaErr ⟨8, by omega⟩ ⟨9, by omega⟩ = 0
    ∧ tesCovOf ip ic tc tbath gta tcErr tbathErr gtaErr ⟨9, by omega⟩ ⟨7, by omega⟩ = 0
    ∧ tesCovOf ip ic tc tbath gta tcErr tbathErr gtaErr ⟨9, by omega⟩ ⟨8, by omega⟩ = 0
    ∧ (∀ i : Fin 7,
        tesMuOf ip ic tc tbath gta tcErr tbathErr gtaErr (finLow i) = ip (finEl i))
    ∧ tesMuOf ip ic tc tbath gta tcErr tbathErr gtaErr ⟨7, by omega⟩ = tc
    ∧ tesMuOf ip ic tc tbath gta tcErr tbathErr gtaErr ⟨8, by omega⟩ = tbath
    ∧ tesMuOf ip ic tc tbath gta tcErr tbathErr gtaErr ⟨9, by omega⟩ = gta
    ∧ estimateNoiseErrorsNsamplesDefault = 500 := by
  refine ⟨?_, ?_, rfl, rfl, rfl, rfl, rfl, rfl, rfl, rfl, rfl, ?_, rfl, rfl, rfl, rfl⟩
  · intro i j
    have hi := i.isLt
    have hj := j.isLt
    simp only [tesCovOf, getTesParamsDist, tesFullCov, finLow, finEl]
    split_ifs <;> first | rfl | (exfalso; omega)
  · intro i
    have hi := i.isLt
    refine ⟨?_, ?_, ?_, ?_, ?_, ?_⟩ <;>
      (simp only [tesCovOf, getTesParamsDist, tesFullCov, finLow, finEl]
       split_ifs <;> first | rfl | (exfalso; omega))
  · intro i
    have hi := i.isLt
    simp only [tesMuOf, getTesParamsDist, tesFullMu, finLow, finEl]
    split_ifs <;> first | rfl | (exfalso; omega)

/-- C3 (amended): after `_fit_rload_didv`, `rload` is the arithmetic
mean of the per-point fitted total resistances, `rload_err` is the
`np.std` standard deviation of those values (population normalization,
divide by `N`), and `rp = rload - rshunt`; after `_fit_rn_didv`,
`rn_didv` is the mean of the per-point fitted total resistances of the
normal range minus `rload`. -/
theorem rload_rn_aggregation (fit fit2 : SweepRow → ℚ) (s : IVState) :
    (fitRloadDidv fit s).rload
      = some (npMean ((rowsInRange (didvRowsOf s) s.scinds).map fit))
    ∧ (fitRloadDidv fit s).rloadErr
      = some (Real.sqrt (((npVar ((rowsInRange (didvRowsOf s) s.scinds).map fit) : ℚ) : ℝ)))
    ∧ (fitRloadDidv fit s).rp
      = some (npMean ((rowsInRange (didvRowsOf s) s.scinds).map fit) - s.rshunt)
    ∧ ∀ s2 : IVState, fitRnDidv fit2 (fitRloadDidv fit s) = Except.ok s2 →
        s2.rnDidv = some (npMean ((rowsInRange (didvRowsOf s) s.norminds).map fit2)
          - npMean ((rowsInRange (didvRowsOf s) s.scinds).map fit)) := by
  refine ⟨rfl, rfl, rfl, ?_⟩
  intro s2 h
  have hv : fitRnDidv fit2 (fitRloadDidv fit s)
      = Except.ok
          ({ fitRloadDidv fit s with
             rnDidv := some (npMean ((rowsInRange (didvRowsOf s) s.norminds).map fit2)
               - npMean ((rowsInRange (didvRowsOf s) s.scinds).map fit)),
             rtotList := ((rowsInRange (didvRowsOf s) s.norminds).map fit2) }) := rfl
  rw [hv] at h
  injection h with h2
  subst h2
  rfl

/-- C3 witness: both calibration passes on the concrete state `csW`
with the per-point fit reading the row offset. -/
theorem rload_rn_aggregation_witness :
    fitRnDidv (fun r => r.offset) (fitRloadDidv (fun r => r.offset) csW)
        = Except.ok csWFitted
    ∧ csWFitted.rnDidv
        = some (npMean ((rowsInRange (didvRowsOf csW) csW.norminds).map (fun r => r.offset))
          - npMean ((rowsInRange (didvRowsOf csW) csW.scinds).map (fun r => r.offset))) := by
  constructor
  · rfl
  · exact (rload_rn_aggregation (fun r => r.offset) (fun r => r.offset) csW).2.2.2
      csWFitted rfl

/-- C3 (counterexample): on fitted total resistances `[0, 2]` the code
stores `rload_err = np.std([0,2]) = 1`, whereas the Bessel-corrected
sample standard deviation named by the claim is `sqrt 2 ≠ 1`. -/
theorem rload_err_is_population_std :
    (fitRloadDidv (fun r => r.offset) csW).rloadErr = some 1
    ∧ specSampleStd ((rowsInRange (didvRowsOf csW) csW.scinds).map (fun r => r.offset))
        = Real.sqrt 2
    ∧ (1 : ℝ) ≠ Real.sqrt 2 := by
  refine ⟨?_, ?_, ?_⟩
  · show some (npStd [(0 : ℚ), 2]) = some 1
    have h1 : npVar [(0 : ℚ), 2] = 1 := by norm_num [npVar, npMean]
    rw [npStd, h1]
    norm_num
  · show specSampleStd [(0 : ℚ), 2] = Real.sqrt 2
    rw [specSampleStd]
    norm_num [npMean]
  · intro h
    have h2 := Real.sqrt_eq_one.mp h.symm
    norm_num at h2

/-- C5 (amended): when some channel fails the occurs-exactly-twice bias
count, the constructor fails immediately (before any state is built)
with the generic fixed-message `ValueError` — which does not name the
offending channel — and when every channel passes, the constructor
never raises that shape error. -/
theorem ivanalysis_shape_check (df : List SweepRow) (nnorm nsc : ℕ)
    (ntran : Option (Int × Int)) (ch : Option (List String))
    (q1 q2 q3 q4 q5 q6 q7 q8 : ℚ) (ibe : Option ℚ) (lgc : Bool) :
    (checkDf (sortDf df) ch = false →
      ivInit df nnorm nsc ntran ch q1 q2 q3 q4 q5 q6 q7 q8 ibe lgc
        = Except.error (PyError.valueError shapeMsg))
    ∧ (checkDf (sortDf df) ch = true →
      ivInit df nnorm nsc ntran ch q1 q2 q3 q4 q5 q6 q7 q8 ibe lgc
        ≠ Except.error (PyError.valueError shapeMsg)) := by
  constructor
  · intro hc
    unfold ivInit
    rw [if_neg (by simp [hc])]
  · intro hc hbad
    unfold ivInit at hbad
    rw [if_pos hc] at hbad
    set df2 := (if lgc then removeBadSeries (sortDf df) else sortDf df) with hdf2
    cases ntran with
    | some tr =>
        cases ibe with
        | none =>
            simp only [ivInitCore, ivInitFinish] at hbad
            split at hbad
            · simp at hbad
            · simp only [Except.error.injEq, PyError.valueError.injEq] at hbad
              exact absurd hbad (by decide)
        | some e =>
            simp only [ivInitCore, ivInitFinish] at hbad
            simp [initLocalNames] at hbad
    | none =>
        simp only [ivInitCore] at hbad
        by_cases hn : nnorm = 0
        · rw [if_pos hn] at hbad
          simp at hbad
        · rw [if_neg hn] at hbad
          by_cases hs : (((df2.length : Int) / 2 - (nsc : Int)) < ((df2.length : Int) / 2))
          · rw [if_pos hs] at hbad
            cases ibe with
            | none =>
                simp only [ivInitFinish] at hbad
                split at hbad
                · simp at hbad
                · simp only [Except.error.injEq, PyError.valueError.injEq] at hbad
                  exact absurd hbad (by decide)
            | some e =>
                simp only [ivInitFinish] at hbad
                simp [initLocalNames] at hbad
          · rw [if_neg hs] at hbad
            simp at hbad

/-- C5 witness: the constructor rejects `dfBadQ` (bias 0 occurs once on
channel QQQ) with the fixed-message `ValueError`. -/
theorem ivanalysis_shape_check_witness :
    checkDf (sortDf dfBadQ) none = false
    ∧ ivInit dfBadQ 1 1 none none (5/1000) 0 0 0 0 0 0 0 none true
        = Except.error (PyError.valueError shapeMsg) := by
  refine ⟨by decide, ?_⟩
  exact (ivanalysis_shape_check dfBadQ 1 1 none none (5/1000) 0 0 0 0 0 0 0 none true).1
    (by decide)

/-- C5 (counterexample): two datasets whose offending channels have
different names are rejected with the identical constant message, and
that message contains neither channel name — the raised error does not
name the offending channel (and it is a plain `ValueError`, not a
dedicated shape-error type). -/
theorem shape_error_does_not_name_channel :
    ivInitErrMsg (ivInit dfBadQ 1 1 none none (5/1000) 0 0 0 0 0 0 0 none true)
        = some shapeMsg
    ∧ ivInitErrMsg (ivInit dfBadZ 1 1 none none (5/1000) 0 0 0 0 0 0 0 none true)
        = some shapeMsg
    ∧ ¬ List.IsInfix (("QQQ").toList) (shapeMsg.toList)
    ∧ ¬ List.IsInfix (("ZQZ").toList) (shapeMsg.toList) := by
  refine ⟨rfl, rfl, by decide, by decide⟩

/-- C10: if the constructor succeeds on some input with `ib_err = None`,
then on the same input with any non-`None` `ib_err` it raises the
unbound-local error for `ibias_err`: the array is only created in the
`ib_err is None` branch, so the documented bias-current-uncertainty
input can never actually be supplied. -/
theorem ivanalysis_ib_err_unbound (df : List SweepRow) (nnorm nsc : ℕ)
    (ntran : Option (Int × Int)) (ch : Option (List String))
    (q1 q2 q3 q4 q5 q6 q7 q8 : ℚ) (lgc : Bool) (s : IVState)
    (h : ivInit df nnorm nsc ntran ch q1 q2 q3 q4 q5 q6 q7 q8 none lgc = Except.ok s)
    (e : ℚ) :
    ivInit df nnorm nsc ntran ch q1 q2 q3 q4 q5 q6 q7 q8 (some e) lgc
      = Except.error (PyError.nameError ("ibias_err")) := by
  unfold ivInit at h ⊢
  by_cases hc : checkDf (sortDf df) ch = true
  · rw [if_pos hc] at h ⊢
    cases ntran with
    | some tr =>
        simp only [ivInitCore, ivInitFinish]
        simp [initLocalNames]
    | none =>
        simp only [ivInitCore] at h ⊢
        by_cases hn : nnorm = 0
        · rw [if_pos hn] at h
          simp at h
        · rw [if_neg hn] at h ⊢
          by_cases hs :
              ((((if lgc then removeBadSeries (sortDf df) else sortDf df).length : Int) / 2
                  - (nsc : Int))
                < (((if lgc then removeBadSeries (sortDf df) else sortDf df).length : Int) / 2))
          · rw [if_pos hs]
            simp only [ivInitFinish]
            simp [initLocalNames]
          · rw [if_neg hs] at h
            simp at h
  · rw [if_neg hc] at h
    simp at h

/-- Evaluation of the constructor on the clean fixture `df6`. -/
theorem df6_init :
    ivInit df6 1 1 none none (5/1000) 0 0 0 0 0 0 0 none true = Except.ok s6 := rfl

/-- C10 witness: on the accepted dataset `df6`, passing `ib_err = 1`
makes the constructor fail with the `ibias_err` unbound-local error. -/
theorem ivanalysis_ib_err_unbound_witness :
    ivInit df6 1 1 none none (5/1000) 0 0 0 0 0 0 0 (some 1) true
      = Except.error (PyError.nameError ("ibias_err")) :=
  ivanalysis_ib_err_unbound df6 1 1 none none (5/1000) 0 0 0 0 0 0 0 true s6 df6_init 1

/-- C4 (amended): for every dataset the constructor accepts with
`ntran = None`, and whenever the configured counts fit the cleaned data
(`nnorm + nsc ≤ len/2`), the three index ranges partition the whole
per-bias-point index range `[0, len/2)` with no overlap and no gap —
normal at the lowest indices, SC at the highest — and the per-channel
occurs-exactly-twice bias-count invariant holds for the dataset the
check saw, i.e. **before** cleaning (cleaning can drop one noise row of
one pair and one didv row of another, keeping the totals equal, so an
even per-bias count after cleaning is not guaranteed). -/
theorem ivanalysis_index_partition (df : List SweepRow) (nnorm nsc : ℕ)
    (ch : Option (List String)) (q1 q2 q3 q4 q5 q6 q7 q8 : ℚ)
    (ibe : Option ℚ) (lgc : Bool) (s : IVState)
    (h : ivInit df nnorm nsc none ch q1 q2 q3 q4 q5 q6 q7 q8 ibe lgc = Except.ok s)
    (hb : (nnorm : Int) + (nsc : Int) ≤ (s.df.length : Int) / 2) :
    s.norminds = (0, (nnorm : Int))
    ∧ s.traninds = ((nnorm : Int), (s.df.length : Int) / 2 - (nsc : Int))
    ∧ s.scinds = ((s.df.length : Int) / 2 - (nsc : Int), (s.df.length : Int) / 2)
    ∧ (∀ k : Int, (0 ≤ k ∧ k < (s.df.length : Int) / 2) ↔
        (inR s.norminds k ∨ inR s.traninds k ∨ inR s.scinds k))
    ∧ (∀ k : Int,
        ¬ (inR s.norminds k ∧ inR s.traninds k)
        ∧ ¬ (inR s.norminds k ∧ inR s.scinds k)
        ∧ ¬ (inR s.traninds k ∧ inR s.scinds k))
    ∧ checkDf (sortDf df) ch = true := by
  unfold ivInit at h
  by_cases hc : checkDf (sortDf df) ch = true
  · rw [if_pos hc] at h
    set df2 := (if lgc then removeBadSeries (sortDf df) else sortDf df) with hdf2
    simp only [ivInitCore] at h
    by_cases hn : nnorm = 0
    · rw [if_pos hn] at h
      simp at h
    · rw [if_neg hn] at h
      by_cases hs : (((df2.length : Int) / 2 - (nsc : Int)) < ((df2.length : Int) / 2))
      · rw [if_pos hs] at h
        cases ibe with
        | some e =>
            simp only [ivInitFinish] at h
            simp [initLocalNames] at h
        | none =>
            simp only [ivInitFinish] at h
            split at h
            · injection h with h2
              subst h2
              refine ⟨rfl, rfl, rfl, ?_, ?_, hc⟩
              · intro k
                simp only [ivStateOf, inR] at hb ⊢
                generalize hm : ((df2.length : Int) / 2) = m at hb ⊢
                omega
              · intro k
                simp only [ivStateOf, inR] at hb ⊢
                generalize hm : ((df2.length : Int) / 2) = m at hb ⊢
                omega
            · simp at h
      · rw [if_neg hs] at h
        simp at h
  · rw [if_neg hc] at h
    simp at h

/-- C4 witness: the accepted fixture `df6` with `nnorm = nsc = 1`
satisfies the hypotheses and the normal range is `range(1)`. -/
theorem ivanalysis_index_partition_witness :
    ivInit df6 1 1 none none (5/1000) 0 0 0 0 0 0 0 none true = Except.ok s6
    ∧ ((1 : ℕ) : Int) + ((1 : ℕ) : Int) ≤ (s6.df.length : Int) / 2
    ∧ s6.norminds = (0, ((1 : ℕ) : Int)) := by
  refine ⟨df6_init, by decide, ?_⟩
  exact (ivanalysis_index_partition df6 1 1 none (5/1000) 0 0 0 0 0 0 0 none true s6
    df6_init (by decide)).1

/-- C4 (counterexample): `df8c` is genuinely accepted by the
constructor — every bias occurs twice before cleaning, and cleaning
drops one noise row (bias 2) and one didv row (bias 3), so the cleaned
noise/didv counts stay equal and the bias/offset array assignments do
not raise — yet after cleaning the remaining channel has bias value 2
occurring exactly once, an odd count, refuting the claimed
even-count-after-cleaning invariant. Moreover with `nnorm = nsc = 2`
the same dataset is still accepted while the normal and SC ranges
overlap at index 1, so the partition part also needs the
`nnorm + nsc ≤ len/2` bound of the amended claim. -/
theorem even_count_after_cleaning_fails :
    (ivInit df8c 1 1 none none (5/1000) 0 0 0 0 0 0 0 none true).map
        (fun s => biasCount s.df ("A") 2) = Except.ok 1
    ∧ (1 : ℕ) % 2 = 1
    ∧ (ivInit df8c 2 2 none none (5/1000) 0 0 0 0 0 0 0 none true).map
        (fun s => (s.norminds, s.scinds)) = Except.ok ((0, 2), (1, 3))
    ∧ inR ((0 : Int), (2 : Int)) 1 ∧ inR ((1 : Int), (3 : Int)) 1 := by
  refine ⟨rfl, rfl, rfl, ⟨by norm_num, by norm_num⟩, ⟨by norm_num, by norm_num⟩⟩
